import Mathlib

/-
Verification of the formula and templating logic of the jchidley/electric
repository: three small Rust binaries (earthing_conductor.rs, garage_supply.rs,
garage_earth.rs) that evaluate closed-form electrical formulas and substitute
the results into markdown templates.

Modelling conventions:
* f64 scalars are modelled as exact rationals (ℚ) wherever the computation is
  rational, and as real numbers (ℝ) where a square root appears
  (calculate_conductor_size).  At the magnitudes computed by these programs the
  idealisation agrees with f64 to far better than the 0.01 tolerances the
  specification uses.
* The IEEE-754 behaviour of division by zero, which one claim is about, is
  modelled by an explicit classification type (FpClass) rather than by the
  total Mathlib convention that division by zero yields zero.
* File I/O is factored out: the functions that read a template file are
  modelled as functions of the template string.
-/

/-- Rust function calculate_voltage_drop, garage_supply.rs lines 28 to 30; the
same function appears verbatim in earthing_conductor.rs lines 88 to 90 and
garage_earth.rs lines 80 to 82.  Body: (mv_per_amp_per_meter * current *
length) / 1000.0. -/
def calculate_voltage_drop (mv_per_amp_per_meter current length : ℚ) : ℚ :=
  (mv_per_amp_per_meter * current * length) / 1000

/-- Rust function calculate_percentage_drop, garage_supply.rs lines 42 to 44;
the same function appears verbatim in earthing_conductor.rs lines 102 to 104
and garage_earth.rs lines 94 to 96.  Body: (voltage_drop / nominal_voltage) *
100.0. -/
def calculate_percentage_drop (voltage_drop nominal_voltage : ℚ) : ℚ :=
  (voltage_drop / nominal_voltage) * 100

/-- Rust function calculate_conductor_size, earthing_conductor.rs lines 47 to
49; the same function appears verbatim in garage_earth.rs lines 47 to 49.
Body: (fault_current * fault_duration.sqrt()) / k_factor.  Modelled over ℝ
because of the square root. -/
noncomputable def calculate_conductor_size
    (fault_current fault_duration k_factor : ℝ) : ℝ :=
  (fault_current * Real.sqrt fault_duration) / k_factor

/-- Rust struct MaterialConstants, earthing_conductor.rs lines 57 to 65. -/
structure MaterialConstants where
  copper : ℚ
  aluminum : ℚ
  steel : ℚ

/-- Rust impl Default for MaterialConstants, earthing_conductor.rs lines 67 to
75: copper 143.0, aluminum 95.0, steel 52.0. -/
def MaterialConstants.default : MaterialConstants :=
  ⟨143, 95, 52⟩

namespace earthing_conductor

/-- Scalar computed in generate_markdown of earthing_conductor.rs, lines 117
to 123: voltage drop at the line 120 maximum current 64.0 A, with the line 117
rating 4.4 mV/A/m and the line 118 length 40.0 m. -/
def voltage_drop_max : ℚ := calculate_voltage_drop 4.4 64 40

/-- Scalar computed in generate_markdown of earthing_conductor.rs, lines 121
and 125: voltage drop at half_current = max_current / 2.0. -/
def voltage_drop_half : ℚ := calculate_voltage_drop 4.4 (64 / 2) 40

end earthing_conductor

/-- Decides whether the pattern pat occurs at the head of s, the match test
performed at each position by Rust str.replace. -/
def listStartsWith : List Char → List Char → Bool
  | [], _ => true
  | _ :: _, [] => false
  | p :: ps, c :: cs => p == c && listStartsWith ps cs

/-- Worker for rustReplace: scans s left to right, replacing each
non-overlapping occurrence of the nonempty pattern pat with rep, exactly as
Rust str.replace does.  The fuel argument bounds the number of steps; the
wrapper passes the length of s, which suffices because every step of a
nonempty s consumes at least one character when pat is nonempty. -/
def replaceAllAux (pat rep : List Char) : Nat → List Char → List Char
  | 0, s => s
  | _ + 1, [] => []
  | fuel + 1, c :: cs =>
    if listStartsWith pat (c :: cs) then
      rep ++ replaceAllAux pat rep fuel ((c :: cs).drop pat.length)
    else
      c :: replaceAllAux pat rep fuel cs

/-- Interleaves rep after every character, the shape Rust str.replace
produces for an empty pattern (which matches at every character boundary). -/
def interleaveAfter (rep : List Char) : List Char → List Char
  | [] => []
  | c :: cs => c :: (rep ++ interleaveAfter rep cs)

/-- Rust method str.replace(pat, rep): replaces every non-overlapping
occurrence of pat in s, scanning left to right.  An empty pattern matches at
every character boundary. -/
def rustReplace (s pat rep : String) : String :=
  if pat.data.isEmpty then
    ⟨rep.data ++ interleaveAfter rep.data s.data⟩
  else
    ⟨replaceAllAux pat.data rep.data s.data.length s.data⟩

/-- Rounds a rational to the nearest integer with ties to even, the rounding
Rust float formatting applies at a fixed precision.  A tie can only arise
from a value that is exactly a half-multiple, and an f64 at such a value is
rounded to even by the Rust formatter as well. -/
def roundHalfEven (q : ℚ) : ℤ :=
  if q - ⌊q⌋ < 1 / 2 then ⌊q⌋
  else if 1 / 2 < q - ⌊q⌋ then ⌊q⌋ + 1
  else if ⌊q⌋ % 2 = 0 then ⌊q⌋ else ⌊q⌋ + 1

/-- Decimal digits of a natural number, fuel-driven so that the kernel can
evaluate it; the fuel bounds the number of digits, and passing n itself
always suffices. -/
def natToStrAux : ℕ → ℕ → List Char
  | 0, _ => []
  | fuel + 1, n =>
    if n = 0 then []
    else natToStrAux fuel (n / 10) ++ [Char.ofNat (48 + n % 10)]

/-- Decimal rendering of a natural number. -/
def natToStr (n : ℕ) : String :=
  if n = 0 then "0" else ⟨natToStrAux n n⟩

/-- Rendering of an integer number of hundredths as a fixed two-decimal
numeral: optional minus sign, integer part, dot, exactly two digits. -/
def formatHundredths (n : ℤ) : String :=
  (if n < 0 then "-" else "") ++ natToStr (n.natAbs / 100) ++ "." ++
    (if n.natAbs % 100 < 10 then "0" else "") ++ natToStr (n.natAbs % 100)

/-- Rust fixed two-decimal formatting of a numeric value, as produced by the
format specifier with precision 2 used throughout these programs: the value
rounded to the nearest hundredth (ties to even) printed with exactly two
decimal digits.  Faithful wherever the rational equals the f64 value being
formatted. -/
def formatFixed2 (q : ℚ) : String :=
  formatHundredths (roundHalfEven (q * 100))

namespace garage_supply

/-- The literal voltage placeholder token of the garage_supply markdown
template: an opening brace, the characters colon dot 2, a closing brace, and
the letter V. -/
def tokenV : String := "\x7b:.2\x7dV"

/-- The literal percentage placeholder token: an opening brace, the
characters colon dot 2, a closing brace, and the percent sign. -/
def tokenPct : String := "\x7b:.2\x7d%"

/-- Rust function generate_markdown, garage_supply.rs lines 47 to 125,
parametrised by the content of the template file read at line 102.  It
computes voltage and percentage drops for three cable sizes at three currents
and chains eighteen str.replace calls in source order, lines 106 to 124. -/
def generate_markdown (length : ℚ) (markdown_template : String) : String :=
  let mv_per_amp_per_meter_10mm : ℚ := 4.7
  let mv_per_amp_per_meter_16mm : ℚ := 2.9
  let mv_per_amp_per_meter_25mm : ℚ := 1.9
  let nominal_voltage : ℚ := 230
  let current_32a : ℚ := 32
  let current_40a : ℚ := 40
  let current_50a : ℚ := 50
  let voltage_drop_32a_10mm :=
    calculate_voltage_drop mv_per_amp_per_meter_10mm current_32a length
  let percentage_drop_32a_10mm :=
    calculate_percentage_drop voltage_drop_32a_10mm nominal_voltage
  let voltage_drop_40a_10mm :=
    calculate_voltage_drop mv_per_amp_per_meter_10mm current_40a length
  let percentage_drop_40a_10mm :=
    calculate_percentage_drop voltage_drop_40a_10mm nominal_voltage
  let voltage_drop_50a_10mm :=
    calculate_voltage_drop mv_per_amp_per_meter_10mm current_50a length
  let percentage_drop_50a_10mm :=
    calculate_percentage_drop voltage_drop_50a_10mm nominal_voltage
  let voltage_drop_32a_16mm :=
    calculate_voltage_drop mv_per_amp_per_meter_16mm current_32a length
  let percentage_drop_32a_16mm :=
    calculate_percentage_drop voltage_drop_32a_16mm nominal_voltage
  let voltage_drop_40a_16mm :=
    calculate_voltage_drop mv_per_amp_per_meter_16mm current_40a length
  let percentage_drop_40a_16mm :=
    calculate_percentage_drop voltage_drop_40a_16mm nominal_voltage
  let voltage_drop_50a_16mm :=
    calculate_voltage_drop mv_per_amp_per_meter_16mm current_50a length
  let percentage_drop_50a_16mm :=
    calculate_percentage_drop voltage_drop_50a_16mm nominal_voltage
  let voltage_drop_32a_25mm :=
    calculate_voltage_drop mv_per_amp_per_meter_25mm current_32a length
  let percentage_drop_32a_25mm :=
    calculate_percentage_drop voltage_drop_32a_25mm nominal_voltage
  let voltage_drop_40a_25mm :=
    calculate_voltage_drop mv_per_amp_per_meter_25mm current_40a length
  let percentage_drop_40a_25mm :=
    calculate_percentage_drop voltage_drop_40a_25mm nominal_voltage
  let voltage_drop_50a_25mm :=
    calculate_voltage_drop mv_per_amp_per_meter_25mm current_50a length
  let percentage_drop_50a_25mm :=
    calculate_percentage_drop voltage_drop_50a_25mm nominal_voltage
  let s1 := rustReplace markdown_template tokenV
    (formatFixed2 voltage_drop_32a_10mm ++ "V")
  let s2 := rustReplace s1 tokenPct (formatFixed2 percentage_drop_32a_10mm ++ "%")
  let s3 := rustReplace s2 tokenV (formatFixed2 voltage_drop_40a_10mm ++ "V")
  let s4 := rustReplace s3 tokenPct (formatFixed2 percentage_drop_40a_10mm ++ "%")
  let s5 := rustReplace s4 tokenV (formatFixed2 voltage_drop_50a_10mm ++ "V")
  let s6 := rustReplace s5 tokenPct (formatFixed2 percentage_drop_50a_10mm ++ "%")
  let s7 := rustReplace s6 tokenV (formatFixed2 voltage_drop_32a_16mm ++ "V")
  let s8 := rustReplace s7 tokenPct (formatFixed2 percentage_drop_32a_16mm ++ "%")
  let s9 := rustReplace s8 tokenV (formatFixed2 voltage_drop_40a_16mm ++ "V")
  let s10 := rustReplace s9 tokenPct (formatFixed2 percentage_drop_40a_16mm ++ "%")
  let s11 := rustReplace s10 tokenV (formatFixed2 voltage_drop_50a_16mm ++ "V")
  let s12 := rustReplace s11 tokenPct (formatFixed2 percentage_drop_50a_16mm ++ "%")
  let s13 := rustReplace s12 tokenV (formatFixed2 voltage_drop_32a_25mm ++ "V")
  let s14 := rustReplace s13 tokenPct (formatFixed2 percentage_drop_32a_25mm ++ "%")
  let s15 := rustReplace s14 tokenV (formatFixed2 voltage_drop_40a_25mm ++ "V")
  let s16 := rustReplace s15 tokenPct (formatFixed2 percentage_drop_40a_25mm ++ "%")
  let s17 := rustReplace s16 tokenV (formatFixed2 voltage_drop_50a_25mm ++ "V")
  let s18 := rustReplace s17 tokenPct (formatFixed2 percentage_drop_50a_25mm ++ "%")
  s18

/-- Row of derived quantities printed by one iteration of the per-current
loops in main of garage_supply.rs. -/
structure SupplyRow where
  voltage_drop : ℚ
  percentage_drop : ℚ
  power_loss : ℚ
  yearly_power_loss : ℚ
  cosy_cost : ℚ
  go_cost : ℚ
  investment : ℚ

/-- Loop body of the baseline 10 mm cable loop in main, garage_supply.rs
lines 147 to 166: rating 4.7 mV/A/m, nominal voltage 230 V, yearly usage 4
hours a day for 365 days, tariff rates 0.1414 and 0.085, and investment fixed
at 0.0 (line 154, the base case). -/
def supply_row_10mm (current length : ℚ) : SupplyRow :=
  let voltage_drop := calculate_voltage_drop 4.7 current length
  let percentage_drop := calculate_percentage_drop voltage_drop 230
  let power_loss := voltage_drop * current
  let yearly_power_loss := power_loss * 4 * 365 / 1000
  let cosy_cost := yearly_power_loss * 0.1414
  let go_cost := yearly_power_loss * 0.085
  ⟨voltage_drop, percentage_drop, power_loss, yearly_power_loss, cosy_cost,
    go_cost, 0⟩

/-- Loop body of the larger-cable loops in main, garage_supply.rs lines 174
to 198 (16 mm cable, rating 2.9) and lines 207 to 231 (25 mm cable, rating
1.9), which are identical up to the mv rating: the investment is the
cosy-tariff yearly cost of the baseline 10 mm cable, recomputed in the loop
body (lines 182 to 186), minus the cosy-tariff yearly cost of this cable
(line 187). -/
def supply_row_upgrade (mv current length : ℚ) : SupplyRow :=
  let voltage_drop := calculate_voltage_drop mv current length
  let percentage_drop := calculate_percentage_drop voltage_drop 230
  let power_loss := voltage_drop * current
  let yearly_power_loss := power_loss * 4 * 365 / 1000
  let cosy_cost := yearly_power_loss * 0.1414
  let go_cost := yearly_power_loss * 0.085
  let voltage_drop_10mm := calculate_voltage_drop 4.7 current length
  let power_loss_10mm := voltage_drop_10mm * current
  let yearly_power_loss_10mm := power_loss_10mm * 4 * 365 / 1000
  let cosy_cost_10mm := yearly_power_loss_10mm * 0.1414
  ⟨voltage_drop, percentage_drop, power_loss, yearly_power_loss, cosy_cost,
    go_cost, cosy_cost_10mm - cosy_cost⟩

end garage_supply

/-- Classification of an IEEE-754 double result: a finite value, one of the
two infinities, or not-a-number. -/
inductive FpClass where
  | finite (val : ℝ) : FpClass
  | posInf : FpClass
  | negInf : FpClass
  | nan : FpClass

open Classical in
/-- IEEE-754 division of finite operands, as performed by the Rust division
operator on f64 values written as plain literals (so the zero divisor is a
positive zero): division by zero yields the infinity carrying the sign of the
dividend, or NaN when the dividend is also zero; a nonzero divisor yields the
finite quotient.  Rounding and overflow are ignored; they do not affect the
magnitudes these programs divide. -/
noncomputable def fpDiv (x y : ℝ) : FpClass :=
  if y = 0 then
    if x = 0 then FpClass.nan
    else if 0 < x then FpClass.posInf
    else FpClass.negInf
  else FpClass.finite (x / y)

/-- Multiplication of an IEEE-754 result by the finite positive constant 100,
the final step of calculate_percentage_drop: infinities and NaN are
preserved, finite values are scaled. -/
def fpMulHundred : FpClass → FpClass
  | FpClass.finite x => FpClass.finite (x * 100)
  | FpClass.posInf => FpClass.posInf
  | FpClass.negInf => FpClass.negInf
  | FpClass.nan => FpClass.nan

/-- The body of calculate_conductor_size under the IEEE-754 division model:
the finite numerator fault_current * sqrt fault_duration divided by
k_factor. -/
noncomputable def conductor_size_fp
    (fault_current fault_duration k_factor : ℝ) : FpClass :=
  fpDiv (fault_current * Real.sqrt fault_duration) k_factor

/-- The body of calculate_percentage_drop under the IEEE-754 division model:
voltage_drop divided by nominal_voltage, then multiplied by 100. -/
noncomputable def percentage_drop_fp (voltage_drop nominal_voltage : ℝ) : FpClass :=
  fpMulHundred (fpDiv voltage_drop nominal_voltage)

/-- Holds of an infinity or NaN, the results the specification calls
non-finite. -/
def FpClass.nonFinite : FpClass → Bool
  | FpClass.finite _ => false
  | _ => true

/-- Characterisation of roundHalfEven away from ties: when q lies strictly
between n - 1/2 and n + 1/2, it rounds to n. -/
theorem roundHalfEven_eq (q : ℚ) (n : ℤ) (h1 : (n : ℚ) - 1 / 2 < q)
    (h2 : q < (n : ℚ) + 1 / 2) : roundHalfEven q = n := by
  unfold roundHalfEven
  rcases le_or_lt (n : ℚ) q with h | h
  · have hf : ⌊q⌋ = n := by
      rw [Int.floor_eq_iff]
      constructor
      · exact h
      · linarith
    rw [hf, if_pos (by linarith)]
  · have hf : ⌊q⌋ = n - 1 := by
      rw [Int.floor_eq_iff]
      constructor
      · push_cast
        linarith
      · push_cast
        linarith
    rw [hf]
    rw [if_neg (by push_cast; linarith), if_pos (by push_cast; linarith)]
    omega

/-- C2: calculate_conductor_size returns fault_current * sqrt fault_duration /
k_factor for all arguments, and at the source inputs 580 A, 5 s, K = 143 the
result is within 0.01 of 9.07. -/
theorem c2_conductor_size_formula :
    (∀ I t K : ℝ, calculate_conductor_size I t K = I * Real.sqrt t / K) ∧
    |calculate_conductor_size 580 5 143 - 9.07| < 0.01 := by
  constructor
  · intro I t K
    rfl
  · have hlo : (2.236 : ℝ) < Real.sqrt 5 :=
      (Real.lt_sqrt (by norm_num)).mpr (by norm_num)
    have hhi : Real.sqrt 5 < 2.2361 :=
      (Real.sqrt_lt' (by norm_num)).mpr (by norm_num)
    unfold calculate_conductor_size
    rw [abs_lt]
    constructor <;> nlinarith

/-- C3: calculate_voltage_drop returns rating * current * length / 1000 for
every rating, current and length. -/
theorem c3_voltage_drop_formula :
    ∀ r c l : ℚ, calculate_voltage_drop r c l = r * c * l / 1000 := by
  intro r c l
  rfl

/-- C4: calculate_percentage_drop returns drop / nominal * 100 for every drop
and nominal voltage. -/
theorem c4_percentage_drop_formula :
    ∀ d v : ℚ, calculate_percentage_drop d v = d / v * 100 := by
  intro d v
  rfl

/-- C7: the concrete value checks of the specification: voltage drop of
(4.4, 64, 40) is within 0.01 of 11.26; percentage drop of (11.26, 230) is
within 0.01 of 4.9; voltage drop of (4.7, 32, 45) is within 0.01 of 6.77 and
its percentage drop against 230 V is within 0.01 of 2.94. -/
theorem c7_concrete_values :
    |calculate_voltage_drop 4.4 64 40 - 11.26| < 0.01 ∧
    |calculate_percentage_drop 11.26 230 - 4.9| < 0.01 ∧
    |calculate_voltage_drop 4.7 32 45 - 6.77| < 0.01 ∧
    |calculate_percentage_drop (calculate_voltage_drop 4.7 32 45) 230 - 2.94|
      < 0.01 := by
  refine ⟨?_, ?_, ?_, ?_⟩ <;>
    · simp only [calculate_voltage_drop, calculate_percentage_drop]
      rw [abs_lt]
      norm_num

/-- C8: calculate_percentage_drop is a pure function of its two arguments:
two evaluations at equal inputs give equal outputs. -/
theorem c8_percentage_drop_deterministic :
    ∀ d₁ v₁ d₂ v₂ : ℚ, d₁ = d₂ → v₁ = v₂ →
      calculate_percentage_drop d₁ v₁ = calculate_percentage_drop d₂ v₂ := by
  intro d₁ v₁ d₂ v₂ hd hv
  rw [hd, hv]

/-- Witness for C8 at the source inputs 11.26 and 230. -/
theorem c8_percentage_drop_deterministic_witness :
    calculate_percentage_drop 11.26 230 = calculate_percentage_drop 11.26 230 :=
  c8_percentage_drop_deterministic 11.26 230 11.26 230 rfl rfl

/-- C9: calculate_voltage_drop is homogeneous in the current argument, and in
earthing_conductor.rs the half-load voltage drop equals half the full-load
voltage drop. -/
theorem c9_voltage_drop_linear_in_current :
    (∀ r c l : ℚ,
      calculate_voltage_drop r (2 * c) l = 2 * calculate_voltage_drop r c l) ∧
    earthing_conductor.voltage_drop_half = earthing_conductor.voltage_drop_max / 2 := by
  constructor
  · intro r c l
    unfold calculate_voltage_drop
    ring
  · unfold earthing_conductor.voltage_drop_half earthing_conductor.voltage_drop_max
      calculate_voltage_drop
    norm_num

/-- C10: calculate_conductor_size is strictly antitone in the K factor on
positive inputs, and with the default material constants the copper size is
smaller than the aluminum size, which is smaller than the steel size. -/
theorem c10_conductor_size_antitone_in_k :
    (∀ I t k₁ k₂ : ℝ, 0 < I → 0 < t → 0 < k₁ → k₁ < k₂ →
      calculate_conductor_size I t k₂ < calculate_conductor_size I t k₁) ∧
    calculate_conductor_size 580 5 (MaterialConstants.default.copper : ℝ) <
      calculate_conductor_size 580 5 (MaterialConstants.default.aluminum : ℝ) ∧
    calculate_conductor_size 580 5 (MaterialConstants.default.aluminum : ℝ) <
      calculate_conductor_size 580 5 (MaterialConstants.default.steel : ℝ) := by
  have key : ∀ I t k₁ k₂ : ℝ, 0 < I → 0 < t → 0 < k₁ → k₁ < k₂ →
      calculate_conductor_size I t k₂ < calculate_conductor_size I t k₁ := by
    intro I t k₁ k₂ hI ht hk₁ hk
    unfold calculate_conductor_size
    have hnum : 0 < I * Real.sqrt t :=
      mul_pos hI (Real.sqrt_pos.mpr ht)
    exact div_lt_div_of_pos_left hnum hk₁ hk
  refine ⟨key, ?_, ?_⟩
  · have h := key 580 5 95 143 (by norm_num) (by norm_num) (by norm_num) (by norm_num)
    simpa [MaterialConstants.default] using h
  · have h := key 580 5 52 95 (by norm_num) (by norm_num) (by norm_num) (by norm_num)
    simpa [MaterialConstants.default] using h

/-- Witness for C10 at the source inputs: the copper constant 143 gives a
strictly smaller size than the aluminum constant 95. -/
theorem c10_conductor_size_antitone_in_k_witness :
    calculate_conductor_size 580 5 143 < calculate_conductor_size 580 5 95 :=
  c10_conductor_size_antitone_in_k.1 580 5 95 143 (by norm_num) (by norm_num)
    (by norm_num) (by norm_num)

/-- C1, failing input: a template holding two occurrences of the voltage
placeholder token, run through the embedded generate_markdown of
garage_supply.rs at the default length 45.  Rust str.replace replaces every
occurrence of its pattern, so the first chained replace call already rewrites
both occurrences to the first requested value 6.77V, and the third call,
which requests 8.46V for the second occurrence, finds no token left: the
output carries 6.77V twice, where the claim requires occurrence two to carry
8.46V. -/
theorem c1_replace_all_consumes_every_occurrence :
    garage_supply.generate_markdown 45 "\x7b:.2\x7dV\x7b:.2\x7dV" = "6.77V6.77V" ∧
    formatFixed2 (calculate_voltage_drop 4.7 32 45) ++ "V" = "6.77V" ∧
    formatFixed2 (calculate_voltage_drop 4.7 40 45) ++ "V" = "8.46V" := by
  have hv1 : formatFixed2 (calculate_voltage_drop 4.7 32 45) = "6.77" := by
    unfold formatFixed2
    rw [show roundHalfEven (calculate_voltage_drop 4.7 32 45 * 100) = 677 from
      roundHalfEven_eq _ 677 (by unfold calculate_voltage_drop; norm_num)
        (by unfold calculate_voltage_drop; norm_num)]
    decide
  have hv2 : formatFixed2 (calculate_voltage_drop 4.7 40 45) = "8.46" := by
    unfold formatFixed2
    rw [show roundHalfEven (calculate_voltage_drop 4.7 40 45 * 100) = 846 from
      roundHalfEven_eq _ 846 (by unfold calculate_voltage_drop; norm_num)
        (by unfold calculate_voltage_drop; norm_num)]
    decide
  refine ⟨?_, ?_, ?_⟩
  · simp only [garage_supply.generate_markdown]
    rw [hv1]
    rw [show rustReplace "\x7b:.2\x7dV\x7b:.2\x7dV" garage_supply.tokenV
        ("6.77" ++ "V") = "6.77V6.77V" from by decide]
    have hV : ∀ r : String,
        rustReplace "6.77V6.77V" garage_supply.tokenV r = "6.77V6.77V" :=
      fun _ => rfl
    have hP : ∀ r : String,
        rustReplace "6.77V6.77V" garage_supply.tokenPct r = "6.77V6.77V" :=
      fun _ => rfl
    simp only [hV, hP]
  · rw [hv1]
    decide
  · rw [hv2]
    decide

/-- C5, counterexample: at the negative material constant -52 with the
source fault inputs 580 A and 5 s, the IEEE-754 result of
calculate_conductor_size is a finite negative number, not an infinity or
NaN, refuting the claim that a negative K produces an infinite or
not-a-number result. -/
theorem c5_counterexample_negative_k_finite :
    (conductor_size_fp 580 5 (-52)).nonFinite = false ∧
    conductor_size_fp 580 5 (-52) = FpClass.finite (580 * Real.sqrt 5 / (-52)) ∧
    580 * Real.sqrt 5 / (-52) < 0 := by
  have h : conductor_size_fp 580 5 (-52) =
      FpClass.finite (580 * Real.sqrt 5 / (-52)) := by
    unfold conductor_size_fp fpDiv
    rw [if_neg (by norm_num)]
  refine ⟨by rw [h]; rfl, h, ?_⟩
  apply div_neg_of_pos_of_neg
  · positivity
  · norm_num

/-- C5, amended: the formulas are total with no error path; a zero K in
calculate_conductor_size, or a zero nominal voltage in
calculate_percentage_drop, produces an infinite result (or NaN when the
dividend is also zero) that propagates silently, while a negative K produces
a finite negative result, likewise unguarded. -/
theorem c5_zero_divisors_produce_nonfinite :
    conductor_size_fp 580 5 0 = FpClass.posInf ∧
    percentage_drop_fp 11.26 0 = FpClass.posInf ∧
    percentage_drop_fp 0 0 = FpClass.nan ∧
    (conductor_size_fp 580 5 (-52)).nonFinite = false := by
  have hsq : 0 < (580 : ℝ) * Real.sqrt 5 := by positivity
  refine ⟨?_, ?_, ?_, ?_⟩
  · unfold conductor_size_fp fpDiv
    rw [if_pos rfl, if_neg hsq.ne', if_pos hsq]
  · unfold percentage_drop_fp
    rw [show fpDiv (11.26 : ℝ) 0 = FpClass.posInf from by
      unfold fpDiv
      rw [if_pos rfl, if_neg (by norm_num), if_pos (by norm_num)]]
    rfl
  · unfold percentage_drop_fp
    rw [show fpDiv (0 : ℝ) 0 = FpClass.nan from by
      unfold fpDiv
      rw [if_pos rfl, if_pos rfl]]
    rfl
  · rw [show conductor_size_fp 580 5 (-52) =
        FpClass.finite (580 * Real.sqrt 5 / (-52)) from by
      unfold conductor_size_fp fpDiv
      rw [if_neg (by norm_num)]]
    rfl

/-- C6: in each per-current loop iteration of main in garage_supply.rs, the
power loss is the voltage drop times the current; the yearly energy loss is
the power loss times 4 hours a day times 365 days divided by 1000; the two
yearly costs are that energy times the tariff rates 0.1414 and 0.085; the
investment is 0 for the baseline 10 mm cable and, for a larger cable, the
baseline cosy-tariff yearly cost minus the cosy-tariff yearly cost of the
larger cable. -/
theorem c6_cost_of_loss_chain :
    ∀ mv current length : ℚ,
      (garage_supply.supply_row_10mm current length).power_loss =
        (garage_supply.supply_row_10mm current length).voltage_drop * current ∧
      (garage_supply.supply_row_10mm current length).yearly_power_loss =
        (garage_supply.supply_row_10mm current length).power_loss * 4 * 365 / 1000 ∧
      (garage_supply.supply_row_10mm current length).cosy_cost =
        (garage_supply.supply_row_10mm current length).yearly_power_loss * 0.1414 ∧
      (garage_supply.supply_row_10mm current length).go_cost =
        (garage_supply.supply_row_10mm current length).yearly_power_loss * 0.085 ∧
      (garage_supply.supply_row_10mm current length).investment = 0 ∧
      (garage_supply.supply_row_upgrade mv current length).power_loss =
        (garage_supply.supply_row_upgrade mv current length).voltage_drop * current ∧
      (garage_supply.supply_row_upgrade mv current length).yearly_power_loss =
        (garage_supply.supply_row_upgrade mv current length).power_loss * 4 * 365 / 1000 ∧
      (garage_supply.supply_row_upgrade mv current length).cosy_cost =
        (garage_supply.supply_row_upgrade mv current length).yearly_power_loss * 0.1414 ∧
      (garage_supply.supply_row_upgrade mv current length).go_cost =
        (garage_supply.supply_row_upgrade mv current length).yearly_power_loss * 0.085 ∧
      (garage_supply.supply_row_upgrade mv current length).investment =
        (garage_supply.supply_row_10mm current length).cosy_cost -
          (garage_supply.supply_row_upgrade mv current length).cosy_cost := by
  intro mv current length
  exact ⟨rfl, rfl, rfl, rfl, rfl, rfl, rfl, rfl, rfl, rfl⟩
